import Mathlib

/-!
Shallow embedding of the govault credential-lifecycle helper.

The Go package keeps mutable state on an `API` value (the active session
token held by the underlying Vault client, plus an auth cache recording the
last-used login method and its parameters).  We embed that state as an
explicit `API` record threaded through every function, and we embed the
external world (the Vault backend over HTTP, the local filesystem, the
wall clock) as an `Env` record of response functions.  Each embedded
function also returns the list of observable events it performed (backend
operation calls, token self-lookups, login calls, file reads/writes, and
auth-cache mutations), so that temporal claims about call counts and
ordering can be stated about the trace.

Machine-level caveats of the Go source are modelled explicitly: an
unchecked Go type assertion or nil-pointer dereference becomes the
`Res.panicked` outcome, and `(value, error)` returns become `Res`.
Time is `Int` seconds since epoch; within a single embedded call the
clock reads a fixed `Env.now` value.
-/

namespace GoVault

/-- Values stored in backend secret data maps (Go `interface\x7b\x7d` values decoded
from JSON: strings, numbers, lists, nested objects, booleans). -/
inductive GoValue : Type where
  | str (s : String)
  | num (n : Int)
  | list (elems : List GoValue)
  | map (entries : List (String × GoValue))
  | boolv (b : Bool)

/-- The auth block of a Vault secret (`vaultapi.SecretAuth`), reduced to the
field the source uses. -/
structure SecretAuth where
  clientToken : String

/-- A Vault secret (`vaultapi.Secret`), reduced to the fields the source uses. -/
structure Secret where
  data : List (String × GoValue) := []
  auth : Option SecretAuth := none

/-- A raw backend response: either a Go error or a possibly-nil `*Secret`. -/
inductive BResp : Type where
  | err (e : String)
  | ok (s : Option Secret)

/-- Result of an embedded Go function: normal value, Go error value, or a
Go runtime panic (nil dereference / failed unchecked type assertion). -/
inductive Res (α : Type) : Type where
  | ok (a : α)
  | err (e : String)
  | panicked (msg : String)

/-- Discard the value component (models Go `_, err := ...; return err`). -/
def Res.toUnit {α : Type} : Res α → Res Unit
  | .ok _ => .ok ()
  | .err e => .err e
  | .panicked m => .panicked m

/-- Mirrors `vaultApproleAuth` from structs.go. -/
structure vaultApproleAuth where
  roleID : String := ""
  secretID : String := ""
  roleIDFile : String := ""
  secretIDFile : String := ""
  tokenFile : String := ""
  authPath : String := ""

/-- Mirrors `vaultKubernetesAuth` from structs.go. -/
structure vaultKubernetesAuth where
  jwt : String := ""
  role : String := ""
  authPath : String := ""

/-- Mirrors `vaultLDAPAuth` from structs.go. -/
structure vaultLDAPAuth where
  username : String := ""
  password : String := ""
  authPath : String := ""

/-- Mirrors `vaultAuthCache` from structs.go. -/
structure vaultAuthCache where
  kubernetes : vaultKubernetesAuth := {}
  approle : vaultApproleAuth := {}
  ldap : vaultLDAPAuth := {}
  lastAuthTime : Int := 0
  lastAuthMethod : String := ""

/-- Mirrors the `API` struct: the client's installed token plus the auth cache. -/
structure API where
  token : String := ""
  authCache : vaultAuthCache := {}

/-- The Vault backend as a deterministic oracle: each kind of logical call
maps the request path (and payload, for writes) and the token currently
installed on the client to a response. -/
structure Backend where
  readResp : String → String → BResp
  listResp : String → String → BResp
  writeResp : String → List (String × GoValue) → String → BResp
  deleteResp : String → String → BResp

/-- The local filesystem: file reads return contents or fail, and file
creation / writing either succeeds or fails per path. -/
structure FS where
  readFile : String → Option String
  createOk : String → Bool
  writeOk : String → Bool

/-- The external world for one embedded call: backend, filesystem, and the
current Unix time in seconds. -/
structure Env where
  backend : Backend
  fs : FS
  now : Int

/-- Observable events emitted by the embedded functions, in execution order. -/
inductive Event : Type where
  | opCall (path : String)
  | lookupCall
  | loginCall (path : String)
  | fileRead (path : String)
  | fileCreate (path : String)
  | fileWrite (path : String)
  | setMethod (m : String)
  | stampTime
  | setToken (t : String)
  | dispatchInit (roleIDFile secretIDFile tokenFile authPath : String)
deriving DecidableEq

/-- Association-list lookup, modelling Go map indexing `m[k]`. -/
def lookupKey (k : String) : List (String × GoValue) → Option GoValue
  | [] => none
  | (k', val) :: rest => if k' = k then some val else lookupKey k rest

/-- Models Go `strings.TrimSuffix`: remove one trailing occurrence of `suf`
(computed on the underlying character lists so that it reduces). -/
def trimSuffix (s suf : String) : String :=
  if suf.data.isSuffixOf s.data then ⟨s.data.take (s.data.length - suf.data.length)⟩ else s

/-- Embeds `GetTokenTTL`: self-lookup of the current token's remaining TTL.
A nil secret or a non-number `ttl` entry panics in Go (nil dereference /
unchecked `json.Number` assertion). -/
def GetTokenTTL (env : Env) (v : API) : Res Int × API × List Event :=
  match env.backend.readResp "/auth/token/lookup-self" v.token with
  | .err e => (.err ("unable to perform token/lookup-self: " ++ e), v, [.lookupCall])
  | .ok none => (.panicked "nil secret dereference in GetTokenTTL", v, [.lookupCall])
  | .ok (some s) =>
    match lookupKey "ttl" s.data with
    | some (.num n) => (.ok n, v, [.lookupCall])
    | _ => (.panicked "interface conversion: ttl is not a json.Number", v, [.lookupCall])

/-- Embeds `tokenRefreshNeeded`: a failed TTL lookup counts as needing
refresh; otherwise refresh is needed iff TTL is below the threshold. -/
def tokenRefreshNeeded (env : Env) (v : API) (minimumTokenTTL : Int) :
    Res Bool × API × List Event :=
  match GetTokenTTL env v with
  | (.err _, v1, tr) => (.ok true, v1, tr)
  | (.panicked m, v1, tr) => (.panicked m, v1, tr)
  | (.ok tokenTTL, v1, tr) =>
    if tokenTTL < minimumTokenTTL then (.ok true, v1, tr) else (.ok false, v1, tr)

/-- Embeds `ApproleLogin`: default the auth path, record credentials and
method in the cache, perform the login write, then stamp the attempt time
and install the returned token. -/
def ApproleLogin (env : Env) (v : API) (roleID secretID authPath : String) :
    Res String × API × List Event :=
  let data := [("role_id", GoValue.str roleID), ("secret_id", GoValue.str secretID)]
  let authPath := if authPath = "" then "auth/approle" else authPath
  let v1 : API := { v with
    authCache.approle.roleID := roleID,
    authCache.approle.secretID := secretID,
    authCache.lastAuthMethod := "approle",
    authCache.approle.authPath := authPath }
  match env.backend.writeResp (authPath ++ "/login") data v1.token with
  | .err e => (.err e, v1, [.setMethod "approle", .loginCall (authPath ++ "/login")])
  | .ok none => (.panicked "nil secret dereference in ApproleLogin", v1,
      [.setMethod "approle", .loginCall (authPath ++ "/login")])
  | .ok (some secret) =>
    match secret.auth with
    | none => (.err "no auth info returned", v1,
        [.setMethod "approle", .loginCall (authPath ++ "/login")])
    | some a =>
      let v2 : API := { v1 with authCache.lastAuthTime := env.now, token := a.clientToken }
      (.ok a.clientToken, v2,
        [.setMethod "approle", .loginCall (authPath ++ "/login"), .stampTime,
         .setToken a.clientToken])

/-- Embeds `KubernetesLogin`: record cache fields, write the login payload
to `authPath` verbatim (no defaulting), then stamp time and install. -/
def KubernetesLogin (env : Env) (v : API) (jwt role authPath : String) :
    Res String × API × List Event :=
  let data := [("jwt", GoValue.str jwt), ("role", GoValue.str role)]
  let v1 : API := { v with
    authCache.lastAuthMethod := "kubernetes",
    authCache.kubernetes.jwt := jwt,
    authCache.kubernetes.role := role,
    authCache.kubernetes.authPath := authPath }
  match env.backend.writeResp authPath data v1.token with
  | .err e => (.err e, v1, [.setMethod "kubernetes", .loginCall authPath])
  | .ok none => (.panicked "nil secret dereference in KubernetesLogin", v1,
      [.setMethod "kubernetes", .loginCall authPath])
  | .ok (some secret) =>
    match secret.auth with
    | none => (.err "no auth info returned", v1, [.setMethod "kubernetes", .loginCall authPath])
    | some a =>
      let v2 : API := { v1 with authCache.lastAuthTime := env.now, token := a.clientToken }
      (.ok a.clientToken, v2,
        [.setMethod "kubernetes", .loginCall authPath, .stampTime, .setToken a.clientToken])

/-- Embeds `LDAPLogin`: default the auth path to `auth/ldap`, record cache
fields, write the password to `authPath/login/username`, stamp and install. -/
def LDAPLogin (env : Env) (v : API) (username password authPath : String) :
    Res String × API × List Event :=
  let data := [("password", GoValue.str password)]
  let authPath := if authPath = "" then "auth/ldap" else authPath
  let v1 : API := { v with
    authCache.lastAuthMethod := "ldap",
    authCache.ldap.username := username,
    authCache.ldap.password := password,
    authCache.ldap.authPath := authPath }
  match env.backend.writeResp (authPath ++ "/login/" ++ username) data v1.token with
  | .err e => (.err e, v1, [.setMethod "ldap", .loginCall (authPath ++ "/login/" ++ username)])
  | .ok none => (.panicked "nil secret dereference in LDAPLogin", v1,
      [.setMethod "ldap", .loginCall (authPath ++ "/login/" ++ username)])
  | .ok (some secret) =>
    match secret.auth with
    | none => (.err "no auth info returned", v1,
        [.setMethod "ldap", .loginCall (authPath ++ "/login/" ++ username)])
    | some a =>
      let v2 : API := { v1 with authCache.lastAuthTime := env.now, token := a.clientToken }
      (.ok a.clientToken, v2,
        [.setMethod "ldap", .loginCall (authPath ++ "/login/" ++ username), .stampTime,
         .setToken a.clientToken])

/-- Embeds `InitApprole`: record file paths and method first, read role-id
and secret-id files, install the cached token file's contents, and either
short-circuit on a healthy cached token or perform the network login and
persist the fresh token (create/write failures are surfaced as errors). -/
def InitApprole (env : Env) (v : API) (roleIDFile secretIDFile tokenFile authPath : String) :
    Res String × API × List Event :=
  let v0 : API := if authPath ≠ "" then { v with authCache.approle.authPath := authPath } else v
  let v1 : API := { v0 with
    authCache.approle.roleIDFile := roleIDFile,
    authCache.approle.secretIDFile := secretIDFile,
    authCache.approle.tokenFile := tokenFile,
    authCache.lastAuthMethod := "approle" }
  match env.fs.readFile roleIDFile with
  | none => (.err ("error occurred while trying to read role-id from file: " ++ roleIDFile), v1,
      [.setMethod "approle", .fileRead roleIDFile])
  | some roleIDTmp =>
    let roleID := trimSuffix roleIDTmp "\n"
    match env.fs.readFile secretIDFile with
    | none => (.err ("error occurred while trying to read secret-id from file: " ++ secretIDFile),
        v1, [.setMethod "approle", .fileRead roleIDFile, .fileRead secretIDFile])
    | some secretIDTmp =>
      let secretID := trimSuffix secretIDTmp "\n"
      let tokenTmp := (env.fs.readFile tokenFile).getD ""
      let vaultToken := trimSuffix tokenTmp "\n"
      let v2 : API := { v1 with token := vaultToken }
      let pre : List Event := [.setMethod "approle", .fileRead roleIDFile,
        .fileRead secretIDFile, .fileRead tokenFile, .setToken vaultToken]
      let checked : Res Bool × API × List Event :=
        if vaultToken = "" then (.ok true, v2, [])
        else tokenRefreshNeeded env v2 5
      match checked with
      | (.panicked m, v3, trh) => (.panicked m, v3, pre ++ trh)
      | (.err e, v3, trh) => (.err e, v3, pre ++ trh)
      | (.ok false, v3, trh) => (.ok vaultToken, v3, pre ++ trh)
      | (.ok true, v3, trh) =>
        match ApproleLogin env v3 roleID secretID v3.authCache.approle.authPath with
        | (.err e, v4, trl) => (.err ("error attempting approle login: " ++ e), v4,
            pre ++ trh ++ trl)
        | (.panicked m, v4, trl) => (.panicked m, v4, pre ++ trh ++ trl)
        | (.ok newToken, v4, trl) =>
          if env.fs.createOk v4.authCache.approle.tokenFile then
            if env.fs.writeOk v4.authCache.approle.tokenFile then
              (.ok newToken, v4, pre ++ trh ++ trl ++
                [.fileCreate v4.authCache.approle.tokenFile,
                 .fileWrite v4.authCache.approle.tokenFile])
            else
              (.err ("unable to write to vault token file: " ++ v4.authCache.approle.tokenFile),
                v4, pre ++ trh ++ trl ++ [.fileCreate v4.authCache.approle.tokenFile])
          else
            (.err ("unable to create vault token file: " ++ v4.authCache.approle.tokenFile),
              v4, pre ++ trh ++ trl)

/-- Embeds `checkAuthNeeded`: cooldown guard, token health relevance check,
then dispatch on the cached method string. -/
def checkAuthNeeded (env : Env) (v : API) : Res Unit × API × List Event :=
  if env.now - v.authCache.lastAuthTime < 5 then
    (.err "login was attempted recently, not retrying", v, [])
  else
    match tokenRefreshNeeded env v 5 with
    | (.panicked m, v1, trh) => (.panicked m, v1, trh)
    | (.err e, v1, trh) => (.err e, v1, trh)
    | (.ok false, v1, trh) => (.err "vault token does not need refreshing", v1, trh)
    | (.ok true, v1, trh) =>
      match v1.authCache.lastAuthMethod with
      | "approle" =>
        if v1.authCache.approle.roleIDFile = "" ∨ v1.authCache.approle.secretIDFile = "" then
          match ApproleLogin env v1 v1.authCache.approle.roleID v1.authCache.approle.secretID
              v1.authCache.approle.authPath with
          | (r, v2, trl) => (r.toUnit, v2, trh ++ trl)
        else
          match InitApprole env v1 v1.authCache.approle.roleIDFile
              v1.authCache.approle.secretIDFile v1.authCache.approle.tokenFile
              v1.authCache.approle.authPath with
          | (r, v2, trl) => (r.toUnit, v2, trh ++
              (Event.dispatchInit v1.authCache.approle.roleIDFile
                v1.authCache.approle.secretIDFile v1.authCache.approle.tokenFile
                v1.authCache.approle.authPath :: trl))
      | "kubernetes" =>
        match KubernetesLogin env v1 v1.authCache.kubernetes.jwt v1.authCache.kubernetes.role
            v1.authCache.kubernetes.authPath with
        | (r, v2, trl) => (r.toUnit, v2, trh ++ trl)
      | "ldap" =>
        match LDAPLogin env v1 v1.authCache.ldap.username v1.authCache.ldap.password
            v1.authCache.ldap.authPath with
        | (r, v2, trl) => (r.toUnit, v2, trh ++ trl)
      | "token" =>
        (.ok (), { v1 with authCache.lastAuthTime := env.now }, trh ++ [.stampTime])
      | m => (.err ("unknown previous auth method or no authentication performed: [" ++ m ++ "]"),
          v1, trh)

/-- Embeds the public `Read` operation with its recursive retry-once
pattern; `fuel` bounds the recursion depth of the source's self-call. -/
def Read : Nat → Env → API → String → Option (Res Secret × API × List Event)
  | 0, _, _, _ => none
  | fuel + 1, env, v, path =>
    match env.backend.readResp path v.token with
    | .err e =>
      match checkAuthNeeded env v with
      | (.ok _, v1, trc) =>
        match Read fuel env v1 path with
        | none => none
        | some (r, v2, trr) => some (r, v2, Event.opCall path :: (trc ++ trr))
      | (.err _, v1, trc) => some (.err e, v1, Event.opCall path :: trc)
      | (.panicked m, v1, trc) => some (.panicked m, v1, Event.opCall path :: trc)
    | .ok none => some (.err "secret not found", v, [.opCall path])
    | .ok (some secret) => some (.ok secret, v, [.opCall path])

/-- Embeds the public `List` operation, including the unchecked type
assertion on `data.Data["keys"]` (a panic when absent or not a list). -/
def ListOp : Nat → Env → API → String → Option (Res (List GoValue) × API × List Event)
  | 0, _, _, _ => none
  | fuel + 1, env, v, path =>
    match env.backend.listResp path v.token with
    | .err e =>
      match checkAuthNeeded env v with
      | (.ok _, v1, trc) =>
        match ListOp fuel env v1 path with
        | none => none
        | some (r, v2, trr) => some (r, v2, Event.opCall path :: (trc ++ trr))
      | (.err _, v1, trc) => some (.err e, v1, Event.opCall path :: trc)
      | (.panicked m, v1, trc) => some (.panicked m, v1, Event.opCall path :: trc)
    | .ok none => some (.err "unable to find specified path", v, [.opCall path])
    | .ok (some data) =>
      match lookupKey "keys" data.data with
      | some (.list keys) => some (.ok keys, v, [.opCall path])
      | _ => some (.panicked "interface conversion: keys entry is not a list", v, [.opCall path])

/-- Embeds the public `Write` operation (no nil-secret check on success). -/
def Write : Nat → Env → API → String → List (String × GoValue) →
    Option (Res (Option Secret) × API × List Event)
  | 0, _, _, _, _ => none
  | fuel + 1, env, v, path, data =>
    match env.backend.writeResp path data v.token with
    | .err e =>
      match checkAuthNeeded env v with
      | (.ok _, v1, trc) =>
        match Write fuel env v1 path data with
        | none => none
        | some (r, v2, trr) => some (r, v2, Event.opCall path :: (trc ++ trr))
      | (.err _, v1, trc) => some (.err e, v1, Event.opCall path :: trc)
      | (.panicked m, v1, trc) => some (.panicked m, v1, Event.opCall path :: trc)
    | .ok s => some (.ok s, v, [.opCall path])

/-- Embeds the public `Delete` operation. -/
def Delete : Nat → Env → API → String → Option (Res Unit × API × List Event)
  | 0, _, _, _ => none
  | fuel + 1, env, v, path =>
    match env.backend.deleteResp path v.token with
    | .err e =>
      match checkAuthNeeded env v with
      | (.ok _, v1, trc) =>
        match Delete fuel env v1 path with
        | none => none
        | some (r, v2, trr) => some (r, v2, Event.opCall path :: (trc ++ trr))
      | (.err _, v1, trc) => some (.err e, v1, Event.opCall path :: trc)
      | (.panicked m, v1, trc) => some (.panicked m, v1, Event.opCall path :: trc)
    | .ok _ => some (.ok (), v, [.opCall path])

/-- Embeds `GetKV`: delegates to `Read` (which has its own retry), with an
extra retry-once layer of its own, then unwraps the `data` sub-map when
`returnOnlyData` is set (checked assertion, plain error on mismatch). -/
def GetKV : Nat → Env → API → String → Bool →
    Option (Res (List (String × GoValue)) × API × List Event)
  | 0, _, _, _, _ => none
  | fuel + 1, env, v, path, returnOnlyData =>
    match Read (fuel + 1) env v path with
    | none => none
    | some (.err e, v1, trr) =>
      match checkAuthNeeded env v1 with
      | (.ok _, v2, trc) =>
        match GetKV fuel env v2 path returnOnlyData with
        | none => none
        | some (r, v3, trg) => some (r, v3, trr ++ trc ++ trg)
      | (.err _, v2, trc) => some (.err e, v2, trr ++ trc)
      | (.panicked m, v2, trc) => some (.panicked m, v2, trr ++ trc)
    | some (.panicked m, v1, trr) => some (.panicked m, v1, trr)
    | some (.ok secret, v1, trr) =>
      if returnOnlyData then
        match lookupKey "data" secret.data with
        | some (.map m) => some (.ok m, v1, trr)
        | _ => some (.err ("unable to read requested secret at " ++ path), v1, trr)
      else some (.ok secret.data, v1, trr)

/-- Is this event a backend call made by a public operation wrapper? -/
def isOpCall : Event → Bool
  | .opCall _ => true
  | _ => false

/-- Is this event a backend login call made by a login flow? -/
def isLoginCall : Event → Bool
  | .loginCall _ => true
  | _ => false

/-- Is this event a `Client.SetToken` installation? -/
def isSetToken : Event → Bool
  | .setToken _ => true
  | _ => false

/-- Is this event a `lastAuthMethod` assignment? -/
def isSetMethod : Event → Bool
  | .setMethod _ => true
  | _ => false

/-- Is this event a `lastAuthTime` assignment? -/
def isStampTime : Event → Bool
  | .stampTime => true
  | _ => false

/-- Number of operation calls in a trace. -/
def countOp (tr : List Event) : Nat := (tr.filter isOpCall).length

/-- Number of login calls in a trace. -/
def countLogin (tr : List Event) : Nat := (tr.filter isLoginCall).length

/-- Trace of a fuelled operation result (empty if the fuel ran out). -/
def traceOf {α : Type} : Option (Res α × API × List Event) → List Event
  | none => []
  | some (_, _, tr) => tr

/-- No `setToken` event occurs before the first event satisfying `flag`;
equivalently, every `setToken` has an earlier `flag` event. -/
def noTokenBefore (flag : Event → Bool) (tr : List Event) : Bool :=
  (tr.takeWhile fun e => !(flag e)).all fun e => !(isSetToken e)

/-- Every token installation in the trace is preceded by recording a method. -/
def setTokenAttributed (tr : List Event) : Bool := noTokenBefore isSetMethod tr

/-- Every token installation in the trace is preceded by recording a method
and by stamping the attempt time. -/
def setTokenStamped (tr : List Event) : Bool :=
  noTokenBefore isSetMethod tr && noTokenBefore isStampTime tr

/-- The login-call paths of a trace in order. -/
def loginPaths (tr : List Event) : List String :=
  tr.filterMap fun e => match e with | .loginCall p => some p | _ => none

/-- A backend that fails every operation call with a fixed error. -/
def failingBackend : Backend :=
  { readResp := fun _ _ => .err "op failed"
    listResp := fun _ _ => .err "op failed"
    writeResp := fun _ _ _ => .err "op failed"
    deleteResp := fun _ _ => .err "op failed" }

/-- An empty filesystem. -/
def emptyFS : FS :=
  { readFile := fun _ => none, createOk := fun _ => false, writeOk := fun _ => false }

/-- The cooldown branch of the dispatcher: fail fast, touch nothing, emit
no events. -/
theorem checkAuthNeeded_cooldown (env : Env) (v : API)
    (h : env.now - v.authCache.lastAuthTime < 5) :
    checkAuthNeeded env v = (.err "login was attempted recently, not retrying", v, []) := by
  unfold checkAuthNeeded
  rw [if_pos h]

/-- The relevance-check branch of the dispatcher: cooldown elapsed but the
token is healthy, so fail with the not-auth-related error after exactly the
self-lookup call. -/
theorem checkAuthNeeded_healthy (env : Env) (v : API) (sT : Secret) (ttl0 : Int)
    (hcool : ¬ env.now - v.authCache.lastAuthTime < 5)
    (hlk : env.backend.readResp "/auth/token/lookup-self" v.token = .ok (some sT))
    (httl : lookupKey "ttl" sT.data = some (.num ttl0))
    (hok : ¬ ttl0 < 5) :
    checkAuthNeeded env v = (.err "vault token does not need refreshing", v, [.lookupCall]) := by
  simp only [checkAuthNeeded, tokenRefreshNeeded, GetTokenTTL, hlk, httl, if_neg hcool,
    if_neg hok]

/-- The kubernetes dispatch branch when the token is stale and the login
write succeeds: new token installed, attempt time stamped, exactly one
login call in the trace. -/
theorem checkAuthNeeded_kub_ok (env : Env) (v : API) (sT sL : Secret) (ttl0 : Int)
    (a : SecretAuth)
    (hcool : ¬ env.now - v.authCache.lastAuthTime < 5)
    (hmeth : v.authCache.lastAuthMethod = "kubernetes")
    (hlk : env.backend.readResp "/auth/token/lookup-self" v.token = .ok (some sT))
    (httl : lookupKey "ttl" sT.data = some (.num ttl0))
    (hexp : ttl0 < 5)
    (hlogin : env.backend.writeResp v.authCache.kubernetes.authPath
      [("jwt", .str v.authCache.kubernetes.jwt), ("role", .str v.authCache.kubernetes.role)]
      v.token = .ok (some sL))
    (hauth : sL.auth = some a) :
    checkAuthNeeded env v =
      (.ok (), { v with authCache.lastAuthMethod := "kubernetes",
                        authCache.lastAuthTime := env.now,
                        token := a.clientToken },
       [.lookupCall, .setMethod "kubernetes", .loginCall v.authCache.kubernetes.authPath,
        .stampTime, .setToken a.clientToken]) := by
  simp only [checkAuthNeeded, tokenRefreshNeeded, GetTokenTTL, hlk, httl, if_neg hcool,
    if_pos hexp, hmeth, KubernetesLogin, hlogin, hauth]
  rfl

/-- A backend whose self-lookup reports a healthy token (TTL 3600) and
which fails every other call. -/
def healthyBackend : Backend :=
  { readResp := fun p _ =>
      if p = "/auth/token/lookup-self" then .ok (some { data := [("ttl", .num 3600)] })
      else .err "op failed"
    listResp := fun _ _ => .err "op failed"
    writeResp := fun _ _ _ => .err "op failed"
    deleteResp := fun _ _ => .err "op failed" }

/-- C3: for every auth-cache state, a dispatcher invocation less than 5
seconds after the last recorded attempt time returns the too-soon error
immediately — no token health check (no lookup event), no login, state
untouched — and the `Read` wrapper then surfaces the original operation
error unchanged. -/
theorem vault_C3 (n : Nat) (env : Env) (v : API) (path e : String)
    (hcool : env.now - v.authCache.lastAuthTime < 5)
    (hop : env.backend.readResp path v.token = .err e) :
    checkAuthNeeded env v = (.err "login was attempted recently, not retrying", v, []) ∧
    Read (n + 1) env v path = some (.err e, v, [.opCall path]) := by
  refine ⟨checkAuthNeeded_cooldown env v hcool, ?_⟩
  simp only [Read, hop, checkAuthNeeded_cooldown env v hcool]

/-- Witness for C3 at a concrete environment: last attempt 2 seconds ago. -/
theorem vault_C3_witness :
    checkAuthNeeded { backend := failingBackend, fs := emptyFS, now := 10 }
        { token := "t1", authCache := { lastAuthTime := 8 } } =
      (.err "login was attempted recently, not retrying",
       { token := "t1", authCache := { lastAuthTime := 8 } }, []) ∧
    Read 1 { backend := failingBackend, fs := emptyFS, now := 10 }
        { token := "t1", authCache := { lastAuthTime := 8 } } "kv/data/app" =
      some (.err "op failed", { token := "t1", authCache := { lastAuthTime := 8 } },
        [.opCall "kv/data/app"]) :=
  vault_C3 0 _ _ "kv/data/app" "op failed" (by decide) rfl

/-- C4: when the cooldown has elapsed and the self-lookup reports a healthy
TTL, the dispatcher returns the not-auth-related error without any login
call, and the `Read` wrapper returns the operation's original error, not
the dispatcher's. -/
theorem vault_C4 (n : Nat) (env : Env) (v : API) (path e : String) (sT : Secret) (ttl0 : Int)
    (hcool : ¬ env.now - v.authCache.lastAuthTime < 5)
    (hlk : env.backend.readResp "/auth/token/lookup-self" v.token = .ok (some sT))
    (httl : lookupKey "ttl" sT.data = some (.num ttl0))
    (hok : ¬ ttl0 < 5)
    (hop : env.backend.readResp path v.token = .err e) :
    checkAuthNeeded env v = (.err "vault token does not need refreshing", v, [.lookupCall]) ∧
    Read (n + 1) env v path = some (.err e, v, [.opCall path, .lookupCall]) := by
  refine ⟨checkAuthNeeded_healthy env v sT ttl0 hcool hlk httl hok, ?_⟩
  simp only [Read, hop, checkAuthNeeded_healthy env v sT ttl0 hcool hlk httl hok]

/-- Witness for C4 at a concrete environment: healthy token, failing read. -/
theorem vault_C4_witness :
    checkAuthNeeded { backend := healthyBackend, fs := emptyFS, now := 100 }
        { token := "t1", authCache := { lastAuthTime := 0 } } =
      (.err "vault token does not need refreshing",
       { token := "t1", authCache := { lastAuthTime := 0 } }, [.lookupCall]) ∧
    Read 1 { backend := healthyBackend, fs := emptyFS, now := 100 }
        { token := "t1", authCache := { lastAuthTime := 0 } } "kv/data/app" =
      some (.err "op failed", { token := "t1", authCache := { lastAuthTime := 0 } },
        [.opCall "kv/data/app", .lookupCall]) :=
  vault_C4 0 _ _ "kv/data/app" "op failed" { data := [("ttl", .num 3600)] } 3600
    (by decide) rfl rfl (by decide) rfl

/-- A backend whose list call succeeds with a data map holding no `keys`
entry at all. -/
def keyslessBackend : Backend :=
  { readResp := fun _ _ => .err "unused"
    listResp := fun _ _ => .ok (some { data := [("foo", .str "bar")] })
    writeResp := fun _ _ _ => .err "unused"
    deleteResp := fun _ _ => .err "unused" }

/-- C10: a successful list response whose data has no `keys` list makes the
public `List` operation hit the unchecked type assertion: the embedded
function reaches the panic outcome (a Go runtime panic), not an error
return. -/
theorem vault_C10 :
    ListOp 1 { backend := keyslessBackend, fs := emptyFS, now := 0 } {} "secret/metadata/app" =
      some (.panicked "interface conversion: keys entry is not a list", {},
        [.opCall "secret/metadata/app"]) := rfl

/-- Retry-once accounting for `Read` under a single-shot expired-token
failure: two operation calls, one login call, whatever the retried call
returns. -/
theorem Read_retry_once (n : Nat) (env : Env) (v : API) (path e : String) (sT sL : Secret)
    (ttl0 : Int) (a : SecretAuth)
    (hcool : ¬ env.now - v.authCache.lastAuthTime < 5)
    (hmeth : v.authCache.lastAuthMethod = "kubernetes")
    (hlk : env.backend.readResp "/auth/token/lookup-self" v.token = .ok (some sT))
    (httl : lookupKey "ttl" sT.data = some (.num ttl0))
    (hexp : ttl0 < 5)
    (hlogin : env.backend.writeResp v.authCache.kubernetes.authPath
      [("jwt", .str v.authCache.kubernetes.jwt), ("role", .str v.authCache.kubernetes.role)]
      v.token = .ok (some sL))
    (hauth : sL.auth = some a)
    (hop : env.backend.readResp path v.token = .err e) :
    countOp (traceOf (Read (n + 2) env v path)) = 2 ∧
    countLogin (traceOf (Read (n + 2) env v path)) = 1 := by
  have hk := checkAuthNeeded_kub_ok env v sT sL ttl0 a hcool hmeth hlk httl hexp hlogin hauth
  have hc2 : checkAuthNeeded env
      { v with authCache.lastAuthMethod := "kubernetes",
               authCache.lastAuthTime := env.now, token := a.clientToken } =
      (.err "login was attempted recently, not retrying",
       { v with authCache.lastAuthMethod := "kubernetes",
                authCache.lastAuthTime := env.now, token := a.clientToken }, []) :=
    checkAuthNeeded_cooldown _ _ (by simp)
  rcases h2 : env.backend.readResp path a.clientToken with e2 | s2
  · simp only [Read, hop, hk, h2, hc2, traceOf, countOp, countLogin]
    simp [isOpCall, isLoginCall, List.filter]
  · rcases s2 with _ | s2 <;>
      · simp only [Read, hop, hk, h2, hc2, traceOf, countOp, countLogin]
        simp [isOpCall, isLoginCall, List.filter]

/-- Retry-once accounting for `List` under a single-shot expired-token
failure. -/
theorem ListOp_retry_once (n : Nat) (env : Env) (v : API) (path e : String) (sT sL : Secret)
    (ttl0 : Int) (a : SecretAuth)
    (hcool : ¬ env.now - v.authCache.lastAuthTime < 5)
    (hmeth : v.authCache.lastAuthMethod = "kubernetes")
    (hlk : env.backend.readResp "/auth/token/lookup-self" v.token = .ok (some sT))
    (httl : lookupKey "ttl" sT.data = some (.num ttl0))
    (hexp : ttl0 < 5)
    (hlogin : env.backend.writeResp v.authCache.kubernetes.authPath
      [("jwt", .str v.authCache.kubernetes.jwt), ("role", .str v.authCache.kubernetes.role)]
      v.token = .ok (some sL))
    (hauth : sL.auth = some a)
    (hop : env.backend.listResp path v.token = .err e) :
    countOp (traceOf (ListOp (n + 2) env v path)) = 2 ∧
    countLogin (traceOf (ListOp (n + 2) env v path)) = 1 := by
  have hk := checkAuthNeeded_kub_ok env v sT sL ttl0 a hcool hmeth hlk httl hexp hlogin hauth
  have hc2 : checkAuthNeeded env
      { v with authCache.lastAuthMethod := "kubernetes",
               authCache.lastAuthTime := env.now, token := a.clientToken } =
      (.err "login was attempted recently, not retrying",
       { v with authCache.lastAuthMethod := "kubernetes",
                authCache.lastAuthTime := env.now, token := a.clientToken }, []) :=
    checkAuthNeeded_cooldown _ _ (by simp)
  rcases h2 : env.backend.listResp path a.clientToken with e2 | s2
  · simp only [ListOp, hop, hk, h2, hc2, traceOf, countOp, countLogin]
    simp [isOpCall, isLoginCall, List.filter]
  · rcases s2 with _ | s2
    · simp only [ListOp, hop, hk, h2, hc2, traceOf, countOp, countLogin]
      simp [isOpCall, isLoginCall, List.filter]
    · rcases h3 : lookupKey "keys" s2.data with _ | v3
      · simp only [ListOp, hop, hk, h2, h3, hc2, traceOf, countOp, countLogin]
        simp [isOpCall, isLoginCall, List.filter]
      · rcases v3 with s3 | n3 | l3 | m3 | b3 <;>
          · simp only [ListOp, hop, hk, h2, h3, hc2, traceOf, countOp, countLogin]
            simp [isOpCall, isLoginCall, List.filter]

/-- Retry-once accounting for `Write` under a single-shot expired-token
failure. -/
theorem Write_retry_once (n : Nat) (env : Env) (v : API) (path e : String)
    (data : List (String × GoValue)) (sT sL : Secret) (ttl0 : Int) (a : SecretAuth)
    (hcool : ¬ env.now - v.authCache.lastAuthTime < 5)
    (hmeth : v.authCache.lastAuthMethod = "kubernetes")
    (hlk : env.backend.readResp "/auth/token/lookup-self" v.token = .ok (some sT))
    (httl : lookupKey "ttl" sT.data = some (.num ttl0))
    (hexp : ttl0 < 5)
    (hlogin : env.backend.writeResp v.authCache.kubernetes.authPath
      [("jwt", .str v.authCache.kubernetes.jwt), ("role", .str v.authCache.kubernetes.role)]
      v.token = .ok (some sL))
    (hauth : sL.auth = some a)
    (hop : env.backend.writeResp path data v.token = .err e) :
    countOp (traceOf (Write (n + 2) env v path data)) = 2 ∧
    countLogin (traceOf (Write (n + 2) env v path data)) = 1 := by
  have hk := checkAuthNeeded_kub_ok env v sT sL ttl0 a hcool hmeth hlk httl hexp hlogin hauth
  have hc2 : checkAuthNeeded env
      { v with authCache.lastAuthMethod := "kubernetes",
               authCache.lastAuthTime := env.now, token := a.clientToken } =
      (.err "login was attempted recently, not retrying",
       { v with authCache.lastAuthMethod := "kubernetes",
                authCache.lastAuthTime := env.now, token := a.clientToken }, []) :=
    checkAuthNeeded_cooldown _ _ (by simp)
  rcases h2 : env.backend.writeResp path data a.clientToken with e2 | s2
  · simp only [Write, hop, hk, h2, hc2, traceOf, countOp, countLogin]
    simp [isOpCall, isLoginCall, List.filter]
  · simp only [Write, hop, hk, h2, hc2, traceOf, countOp, countLogin]
    simp [isOpCall, isLoginCall, List.filter]

/-- Retry-once accounting for `Delete` under a single-shot expired-token
failure. -/
theorem Delete_retry_once (n : Nat) (env : Env) (v : API) (path e : String) (sT sL : Secret)
    (ttl0 : Int) (a : SecretAuth)
    (hcool : ¬ env.now - v.authCache.lastAuthTime < 5)
    (hmeth : v.authCache.lastAuthMethod = "kubernetes")
    (hlk : env.backend.readResp "/auth/token/lookup-self" v.token = .ok (some sT))
    (httl : lookupKey "ttl" sT.data = some (.num ttl0))
    (hexp : ttl0 < 5)
    (hlogin : env.backend.writeResp v.authCache.kubernetes.authPath
      [("jwt", .str v.authCache.kubernetes.jwt), ("role", .str v.authCache.kubernetes.role)]
      v.token = .ok (some sL))
    (hauth : sL.auth = some a)
    (hop : env.backend.deleteResp path v.token = .err e) :
    countOp (traceOf (Delete (n + 2) env v path)) = 2 ∧
    countLogin (traceOf (Delete (n + 2) env v path)) = 1 := by
  have hk := checkAuthNeeded_kub_ok env v sT sL ttl0 a hcool hmeth hlk httl hexp hlogin hauth
  have hc2 : checkAuthNeeded env
      { v with authCache.lastAuthMethod := "kubernetes",
               authCache.lastAuthTime := env.now, token := a.clientToken } =
      (.err "login was attempted recently, not retrying",
       { v with authCache.lastAuthMethod := "kubernetes",
                authCache.lastAuthTime := env.now, token := a.clientToken }, []) :=
    checkAuthNeeded_cooldown _ _ (by simp)
  rcases h2 : env.backend.deleteResp path a.clientToken with e2 | s2
  · simp only [Delete, hop, hk, h2, hc2, traceOf, countOp, countLogin]
    simp [isOpCall, isLoginCall, List.filter]
  · simp only [Delete, hop, hk, h2, hc2, traceOf, countOp, countLogin]
    simp [isOpCall, isLoginCall, List.filter]

/-- Retry-once accounting for `GetKV` under a single-shot expired-token
failure of its underlying read. -/
theorem GetKV_retry_once (n : Nat) (env : Env) (v : API) (path e : String) (b : Bool)
    (sT sL : Secret) (ttl0 : Int) (a : SecretAuth)
    (hcool : ¬ env.now - v.authCache.lastAuthTime < 5)
    (hmeth : v.authCache.lastAuthMethod = "kubernetes")
    (hlk : env.backend.readResp "/auth/token/lookup-self" v.token = .ok (some sT))
    (httl : lookupKey "ttl" sT.data = some (.num ttl0))
    (hexp : ttl0 < 5)
    (hlogin : env.backend.writeResp v.authCache.kubernetes.authPath
      [("jwt", .str v.authCache.kubernetes.jwt), ("role", .str v.authCache.kubernetes.role)]
      v.token = .ok (some sL))
    (hauth : sL.auth = some a)
    (hop : env.backend.readResp path v.token = .err e) :
    countOp (traceOf (GetKV (n + 2) env v path b)) = 2 ∧
    countLogin (traceOf (GetKV (n + 2) env v path b)) = 1 := by
  have hk := checkAuthNeeded_kub_ok env v sT sL ttl0 a hcool hmeth hlk httl hexp hlogin hauth
  have hc2 : checkAuthNeeded env
      { v with authCache.lastAuthMethod := "kubernetes",
               authCache.lastAuthTime := env.now, token := a.clientToken } =
      (.err "login was attempted recently, not retrying",
       { v with authCache.lastAuthMethod := "kubernetes",
                authCache.lastAuthTime := env.now, token := a.clientToken }, []) :=
    checkAuthNeeded_cooldown _ _ (by simp)
  rcases h2 : env.backend.readResp path a.clientToken with e2 | s2
  · simp only [GetKV, Read, hop, hk, h2, hc2, traceOf, countOp, countLogin]
    simp [isOpCall, isLoginCall, List.filter]
  · rcases s2 with _ | s2
    · simp only [GetKV, Read, hop, hk, h2, hc2, traceOf, countOp, countLogin]
      simp [isOpCall, isLoginCall, List.filter]
    · rcases b with _ | _
      · simp only [GetKV, Read, hop, hk, h2, hc2, traceOf, countOp, countLogin]
        simp [isOpCall, isLoginCall, List.filter]
      · rcases h3 : lookupKey "data" s2.data with _ | v3
        · simp only [GetKV, Read, hop, hk, h2, h3, hc2, traceOf, countOp, countLogin]
          simp [isOpCall, isLoginCall, List.filter]
        · rcases v3 with s3 | n3 | l3 | m3 | b3 <;>
            · simp only [GetKV, Read, hop, hk, h2, h3, hc2, traceOf, countOp, countLogin]
              simp [isOpCall, isLoginCall, List.filter]

/-- C1: for each public operation (Read, List, Write, Delete, GetKV), a
single-shot backend failure whose token is reported expired by the
self-lookup leads, through the retry wrapper, to exactly one
re-authentication login call and exactly one retry of the operation
(two operation calls in total), for every fuel bound and regardless of
how the backend answers the retried call. -/
theorem vault_C1 (n : Nat) (env : Env) (v : API) (sT sL : Secret) (ttl0 : Int) (a : SecretAuth)
    (pR eR pL eL pW eW pD eD pG eG : String) (dW : List (String × GoValue)) (bG : Bool)
    (hcool : ¬ env.now - v.authCache.lastAuthTime < 5)
    (hmeth : v.authCache.lastAuthMethod = "kubernetes")
    (hlk : env.backend.readResp "/auth/token/lookup-self" v.token = .ok (some sT))
    (httl : lookupKey "ttl" sT.data = some (.num ttl0))
    (hexp : ttl0 < 5)
    (hlogin : env.backend.writeResp v.authCache.kubernetes.authPath
      [("jwt", .str v.authCache.kubernetes.jwt), ("role", .str v.authCache.kubernetes.role)]
      v.token = .ok (some sL))
    (hauth : sL.auth = some a)
    (hR : env.backend.readResp pR v.token = .err eR)
    (hL : env.backend.listResp pL v.token = .err eL)
    (hW : env.backend.writeResp pW dW v.token = .err eW)
    (hD : env.backend.deleteResp pD v.token = .err eD)
    (hG : env.backend.readResp pG v.token = .err eG) :
    (countOp (traceOf (Read (n + 2) env v pR)) = 2 ∧
     countLogin (traceOf (Read (n + 2) env v pR)) = 1) ∧
    (countOp (traceOf (ListOp (n + 2) env v pL)) = 2 ∧
     countLogin (traceOf (ListOp (n + 2) env v pL)) = 1) ∧
    (countOp (traceOf (Write (n + 2) env v pW dW)) = 2 ∧
     countLogin (traceOf (Write (n + 2) env v pW dW)) = 1) ∧
    (countOp (traceOf (Delete (n + 2) env v pD)) = 2 ∧
     countLogin (traceOf (Delete (n + 2) env v pD)) = 1) ∧
    (countOp (traceOf (GetKV (n + 2) env v pG bG)) = 2 ∧
     countLogin (traceOf (GetKV (n + 2) env v pG bG)) = 1) :=
  ⟨Read_retry_once n env v pR eR sT sL ttl0 a hcool hmeth hlk httl hexp hlogin hauth hR,
   ListOp_retry_once n env v pL eL sT sL ttl0 a hcool hmeth hlk httl hexp hlogin hauth hL,
   Write_retry_once n env v pW eW dW sT sL ttl0 a hcool hmeth hlk httl hexp hlogin hauth hW,
   Delete_retry_once n env v pD eD sT sL ttl0 a hcool hmeth hlk httl hexp hlogin hauth hD,
   GetKV_retry_once n env v pG eG bG sT sL ttl0 a hcool hmeth hlk httl hexp hlogin hauth hG⟩

/-- A backend for the C1 witness: the stale token `t1` has TTL 0, the
kubernetes login path issues fresh token `t2`, and every operation call
fails. -/
def kubBackend : Backend :=
  { readResp := fun p tok =>
      if p = "/auth/token/lookup-self" then
        if tok = "t1" then .ok (some { data := [("ttl", .num 0)] })
        else .ok (some { data := [("ttl", .num 3600)] })
      else .err "op failed"
    listResp := fun _ _ => .err "op failed"
    writeResp := fun p _ _ =>
      if p = "auth/kubernetes/login" then .ok (some { auth := some ⟨"t2"⟩ })
      else .err "op failed"
    deleteResp := fun _ _ => .err "op failed" }

/-- The environment and client state for the C1 witness. -/
def kubEnv : Env := { backend := kubBackend, fs := emptyFS, now := 100 }

/-- Client state for the C1 witness: kubernetes was the last method used. -/
def kubAPI : API :=
  { token := "t1"
    authCache := { lastAuthMethod := "kubernetes", lastAuthTime := 0
                   kubernetes := { jwt := "jwt1", role := "role1"
                                   authPath := "auth/kubernetes/login" } } }

/-- Witness for C1 at a concrete environment. -/
theorem vault_C1_witness :
    (countOp (traceOf (Read 2 kubEnv kubAPI "kv/data/r")) = 2 ∧
     countLogin (traceOf (Read 2 kubEnv kubAPI "kv/data/r")) = 1) ∧
    (countOp (traceOf (ListOp 2 kubEnv kubAPI "kv/metadata/l")) = 2 ∧
     countLogin (traceOf (ListOp 2 kubEnv kubAPI "kv/metadata/l")) = 1) ∧
    (countOp (traceOf (Write 2 kubEnv kubAPI "kv/data/w" [("k", .str "x")])) = 2 ∧
     countLogin (traceOf (Write 2 kubEnv kubAPI "kv/data/w" [("k", .str "x")])) = 1) ∧
    (countOp (traceOf (Delete 2 kubEnv kubAPI "kv/data/d")) = 2 ∧
     countLogin (traceOf (Delete 2 kubEnv kubAPI "kv/data/d")) = 1) ∧
    (countOp (traceOf (GetKV 2 kubEnv kubAPI "kv/data/g" true)) = 2 ∧
     countLogin (traceOf (GetKV 2 kubEnv kubAPI "kv/data/g" true)) = 1) :=
  vault_C1 0 kubEnv kubAPI { data := [("ttl", .num 0)] } { auth := some ⟨"t2"⟩ } 0 ⟨"t2"⟩
    "kv/data/r" "op failed" "kv/metadata/l" "op failed" "kv/data/w" "op failed"
    "kv/data/d" "op failed" "kv/data/g" "op failed" [("k", .str "x")] true
    (by decide) rfl rfl rfl (by decide) rfl rfl rfl rfl rfl rfl rfl

/-- C2 (amended): every network login flow records its method and stamps
the attempt time before any token installation in its trace, and
`InitApprole` records its method before any token installation — but (see
the counterexample) its cached-token installation carries no time stamp. -/
theorem vault_C2 (env : Env) (v : API) (rid sid ap jwt ro u pw r s t p : String) :
    setTokenStamped (ApproleLogin env v rid sid ap).2.2 = true ∧
    setTokenStamped (KubernetesLogin env v jwt ro ap).2.2 = true ∧
    setTokenStamped (LDAPLogin env v u pw ap).2.2 = true ∧
    setTokenAttributed (InitApprole env v r s t p).2.2 = true := by
  refine ⟨?_, ?_, ?_, ?_⟩
  · simp only [ApproleLogin]
    repeat' split
    all_goals rfl
  · simp only [KubernetesLogin]
    repeat' split
    all_goals rfl
  · simp only [LDAPLogin]
    repeat' split
    all_goals rfl
  · simp only [InitApprole, ApproleLogin]
    repeat' split
    all_goals rfl

/-- A filesystem holding readable role-id, secret-id and token-cache files. -/
def hitFS : FS :=
  { readFile := fun q =>
      if q = "role.txt" then some "rid"
      else if q = "secret.txt" then some "sid"
      else if q = "token.txt" then some "tok"
      else none
    createOk := fun _ => false
    writeOk := fun _ => false }

/-- Environment for the cached-token cache-hit runs: healthy token lookup,
readable credential and token files. -/
def hitEnv : Env := { backend := healthyBackend, fs := hitFS, now := 100 }

/-- Counterexample to C2 as stated: the cache-hit path of `InitApprole`
installs the cached token on the connection (the run succeeds and the
final client token is the cached one) after recording the method — the
trace passes the method-attribution check — but without ever stamping the
attempt time: the trace contains a `setToken` with no `stampTime` before
it, and the cached timestamp stays 0 while the clock reads 100. -/
theorem vault_C2_cex :
    (InitApprole hitEnv {} "role.txt" "secret.txt" "token.txt" "").1 = .ok "tok" ∧
    (InitApprole hitEnv {} "role.txt" "secret.txt" "token.txt" "").2.1.token = "tok" ∧
    (InitApprole hitEnv {} "role.txt" "secret.txt" "token.txt" "").2.1.authCache.lastAuthTime
      = 0 ∧
    Event.setToken "tok" ∈ (InitApprole hitEnv {} "role.txt" "secret.txt" "token.txt" "").2.2 ∧
    setTokenAttributed (InitApprole hitEnv {} "role.txt" "secret.txt" "token.txt" "").2.2
      = true ∧
    setTokenStamped (InitApprole hitEnv {} "role.txt" "secret.txt" "token.txt" "").2.2
      = false := by
  refine ⟨rfl, rfl, rfl, ?_, rfl, rfl⟩
  decide

/-- An environment whose backend fails every call, at clock 100. -/
def failEnv : Env := { backend := failingBackend, fs := emptyFS, now := 100 }

/-- A backend whose login writes always succeed with token `t9` and whose
self-lookup always fails. -/
def loginOkBackend : Backend :=
  { readResp := fun _ _ => .err "lookup down"
    listResp := fun _ _ => .err "op failed"
    writeResp := fun _ _ _ => .ok (some { auth := some ⟨"t9"⟩ })
    deleteResp := fun _ _ => .err "op failed" }

/-- Environment with always-succeeding logins, at clock 100. -/
def loginOkEnv : Env := { backend := loginOkBackend, fs := emptyFS, now := 100 }

/-- Client state whose last auth method is the bare static token. -/
def tokenAPI : API := { token := "t1", authCache := { lastAuthMethod := "token" } }

/-- C5 (amended): the last-attempt timestamp is stamped to the current
time by every successful login flow and by the token-method recovery path
of the dispatcher; a failed login attempt and a cooldown-blocked
dispatcher invocation leave it unchanged. -/
theorem vault_C5 (env : Env) (v : API) (rid sid ap jwt ro u pw le : String) :
    (∀ tok, (ApproleLogin env v rid sid ap).1 = .ok tok →
      (ApproleLogin env v rid sid ap).2.1.authCache.lastAuthTime = env.now) ∧
    (∀ tok, (KubernetesLogin env v jwt ro ap).1 = .ok tok →
      (KubernetesLogin env v jwt ro ap).2.1.authCache.lastAuthTime = env.now) ∧
    (∀ tok, (LDAPLogin env v u pw ap).1 = .ok tok →
      (LDAPLogin env v u pw ap).2.1.authCache.lastAuthTime = env.now) ∧
    (∀ e, (ApproleLogin env v rid sid ap).1 = .err e →
      (ApproleLogin env v rid sid ap).2.1.authCache.lastAuthTime
        = v.authCache.lastAuthTime) ∧
    (env.now - v.authCache.lastAuthTime < 5 → (checkAuthNeeded env v).2.1 = v) ∧
    (¬ env.now - v.authCache.lastAuthTime < 5 →
      env.backend.readResp "/auth/token/lookup-self" v.token = .err le →
      v.authCache.lastAuthMethod = "token" →
      (checkAuthNeeded env v).2.1.authCache.lastAuthTime = env.now) := by
  refine ⟨?_, ?_, ?_, ?_, ?_, ?_⟩
  · intro tok h
    simp only [ApproleLogin] at h ⊢
    split at h <;> first | simp_all | (split at h <;> simp_all)
  · intro tok h
    simp only [KubernetesLogin] at h ⊢
    split at h <;> first | simp_all | (split at h <;> simp_all)
  · intro tok h
    simp only [LDAPLogin] at h ⊢
    split at h <;> first | simp_all | (split at h <;> simp_all)
  · intro e h
    simp only [ApproleLogin] at h ⊢
    split at h <;> first | simp_all | (split at h <;> simp_all)
  · intro h
    rw [checkAuthNeeded_cooldown env v h]
  · intro h1 h2 h3
    simp only [checkAuthNeeded, tokenRefreshNeeded, GetTokenTTL, h2, h3, if_neg h1]

/-- Witness for C5 at concrete environments: a succeeding approle login
stamps time 100, a failing one leaves 0, a cooldown-blocked dispatcher
call leaves the state untouched, and the token-method recovery stamps
time 100. -/
theorem vault_C5_witness :
    (ApproleLogin loginOkEnv {} "r" "s" "").2.1.authCache.lastAuthTime = 100 ∧
    (ApproleLogin failEnv {} "r" "s" "").2.1.authCache.lastAuthTime = 0 ∧
    (checkAuthNeeded { backend := failingBackend, fs := emptyFS, now := 3 } {}).2.1
      = ({} : API) ∧
    (checkAuthNeeded failEnv tokenAPI).2.1.authCache.lastAuthTime = 100 := by
  refine ⟨?_, ?_, ?_, ?_⟩
  · exact (vault_C5 loginOkEnv {} "r" "s" "" "j" "ro" "u" "p" "x").1 "t9" rfl
  · exact (vault_C5 failEnv {} "r" "s" "" "j" "ro" "u" "p" "x").2.2.2.1 "op failed" rfl
  · exact (vault_C5 { backend := failingBackend, fs := emptyFS, now := 3 } {}
      "r" "s" "" "j" "ro" "u" "p" "x").2.2.2.2.1 (by decide)
  · exact (vault_C5 failEnv tokenAPI "r" "s" "" "j" "ro" "u" "p"
      "op failed").2.2.2.2.2 (by decide) rfl rfl

/-- Counterexample to C5 as stated: a cooldown-blocked invocation of the
dispatcher (clock 10, last attempt 8, hence blocked and answered with the
too-soon error) leaves the last-attempt timestamp at 8 instead of updating
it to the current time; likewise a failed login attempt at clock 100
leaves the timestamp at 0. -/
theorem vault_C5_cex :
    ({ backend := failingBackend, fs := emptyFS, now := 10 } : Env).now -
      ({ token := "t1", authCache := { lastAuthTime := 8 } } : API).authCache.lastAuthTime
        < 5 ∧
    (checkAuthNeeded { backend := failingBackend, fs := emptyFS, now := 10 }
      { token := "t1", authCache := { lastAuthTime := 8 } }).1
        = .err "login was attempted recently, not retrying" ∧
    (checkAuthNeeded { backend := failingBackend, fs := emptyFS, now := 10 }
      { token := "t1", authCache := { lastAuthTime := 8 } }).2.1.authCache.lastAuthTime
        = 8 ∧
    ((8 : Int) = 10 → False) ∧
    (ApproleLogin failEnv {} "r" "s" "").1 = .err "op failed" ∧
    (ApproleLogin failEnv {} "r" "s" "").2.1.authCache.lastAuthTime = 0 ∧
    ((0 : Int) = 100 → False) :=
  ⟨by decide, rfl, rfl, by decide, rfl, rfl, by decide⟩

/-- C7 (amended): with an empty auth path, the LDAP flow logs in at the
conventional `auth/ldap/login/<username>` path and the approle flow at
`auth/approle/login`; the kubernetes flow performs its login write at the
given auth path verbatim, with no default substituted. -/
theorem vault_C7 (env : Env) (v : API) (u pw rid sid j ro ap : String) :
    loginPaths (LDAPLogin env v u pw "").2.2 = ["auth/ldap/login/" ++ u] ∧
    loginPaths (ApproleLogin env v rid sid "").2.2 = ["auth/approle/login"] ∧
    loginPaths (KubernetesLogin env v j ro ap).2.2 = [ap] := by
  refine ⟨?_, ?_, ?_⟩
  · simp only [LDAPLogin, reduceIte]
    split <;> first | rfl | (split <;> rfl)
  · simp only [ApproleLogin, reduceIte]
    split <;> first | rfl | (split <;> rfl)
  · simp only [KubernetesLogin]
    split <;> first | rfl | (split <;> rfl)

/-- Counterexample to C7 as stated: the kubernetes flow with username
credentials and an empty `authPath` performs its login write at the empty
path — the recorded trace shows the backend write went to `""`, and the
cached auth path stays empty, so no conventional default was substituted. -/
theorem vault_C7_cex :
    (KubernetesLogin failEnv {} "jwt1" "role1" "").2.2 =
      [.setMethod "kubernetes", .loginCall ""] ∧
    loginPaths (KubernetesLogin failEnv {} "jwt1" "role1" "").2.2 = [""] ∧
    (KubernetesLogin failEnv {} "jwt1" "role1" "").2.1.authCache.kubernetes.authPath = "" :=
  ⟨rfl, rfl, rfl⟩

/-- C6 (amended): when the role-id and secret-id files are readable and
the token cache file holds a non-empty token whose looked-up TTL is at
least the minimum threshold, `InitApprole` performs no login call, installs
the cached token on the connection and returns it. -/
theorem vault_C6 (env : Env) (v : API) (r s t p rc sc tc : String) (sT : Secret) (ttl0 : Int)
    (hr : env.fs.readFile r = some rc)
    (hs : env.fs.readFile s = some sc)
    (ht : env.fs.readFile t = some tc)
    (hne : ¬ trimSuffix tc "\n" = "")
    (hlk : env.backend.readResp "/auth/token/lookup-self" (trimSuffix tc "\n")
      = .ok (some sT))
    (httl : lookupKey "ttl" sT.data = some (.num ttl0))
    (hok : ¬ ttl0 < 5) :
    (InitApprole env v r s t p).1 = .ok (trimSuffix tc "\n") ∧
    (InitApprole env v r s t p).2.1.token = trimSuffix tc "\n" ∧
    countLogin (InitApprole env v r s t p).2.2 = 0 := by
  simp only [InitApprole, tokenRefreshNeeded, GetTokenTTL, hr, hs, ht, Option.getD_some,
    if_neg hne, hlk, httl, if_neg hok]
  simp [countLogin, isLoginCall, List.filter]

/-- Witness for C6 at the concrete cache-hit environment. -/
theorem vault_C6_witness :
    (InitApprole hitEnv {} "role.txt" "secret.txt" "token.txt" "").1 = .ok "tok" ∧
    (InitApprole hitEnv {} "role.txt" "secret.txt" "token.txt" "").2.1.token = "tok" ∧
    countLogin (InitApprole hitEnv {} "role.txt" "secret.txt" "token.txt" "").2.2 = 0 :=
  vault_C6 hitEnv {} "role.txt" "secret.txt" "token.txt" "" "rid" "sid" "tok"
    { data := [("ttl", .num 3600)] } 3600 rfl rfl rfl (by decide) rfl rfl (by decide)

/-- A filesystem where the token cache file is readable (healthy token)
but the role-id file is not. -/
def brokenRoleFS : FS :=
  { readFile := fun q => if q = "token.txt" then some "tok" else none
    createOk := fun _ => false
    writeOk := fun _ => false }

/-- Environment with a healthy cached token but an unreadable role-id file. -/
def brokenRoleEnv : Env := { backend := healthyBackend, fs := brokenRoleFS, now := 100 }

/-- Counterexample to C6 as stated: the token cache file holds the
non-empty token `tok` whose looked-up TTL (3600) passes the health check,
yet `InitApprole` fails — because the role-id file is unreadable — without
installing or returning the cached token (it performs no login call
either, but the claim's conclusion fails). -/
theorem vault_C6_cex :
    brokenRoleEnv.fs.readFile "token.txt" = some "tok" ∧
    brokenRoleEnv.backend.readResp "/auth/token/lookup-self" "tok"
      = .ok (some { data := [("ttl", .num 3600)] }) ∧
    (InitApprole brokenRoleEnv {} "role.txt" "secret.txt" "token.txt" "").1 =
      .err "error occurred while trying to read role-id from file: role.txt" ∧
    (InitApprole brokenRoleEnv {} "role.txt" "secret.txt" "token.txt" "").2.1.token = "" :=
  ⟨rfl, rfl, rfl, rfl⟩

/-- The trimmed empty string is empty (helper for the fresh-login runs). -/
theorem trimSuffix_empty : trimSuffix "" "\n" = "" := rfl

/-- C8: when `InitApprole` finds no cached token and performs the network
login successfully but the token cache file cannot be created — or can be
created but cannot be written — it returns the corresponding cache-file
error to the caller even though the fresh token has already been installed
on the connection by `ApproleLogin`. -/
theorem vault_C8 (env : Env) (v : API) (r s t p rc sc : String) (sL : Secret) (a : SecretAuth)
    (hp : ¬ p = "")
    (hr : env.fs.readFile r = some rc)
    (hs : env.fs.readFile s = some sc)
    (ht : env.fs.readFile t = none)
    (hlogin : env.backend.writeResp (p ++ "/login")
      [("role_id", .str (trimSuffix rc "\n")), ("secret_id", .str (trimSuffix sc "\n"))] ""
        = .ok (some sL))
    (hauth : sL.auth = some a) :
    (env.fs.createOk t = false →
      (InitApprole env v r s t p).1 = .err ("unable to create vault token file: " ++ t) ∧
      (InitApprole env v r s t p).2.1.token = a.clientToken) ∧
    (env.fs.createOk t = true → env.fs.writeOk t = false →
      (InitApprole env v r s t p).1 = .err ("unable to write to vault token file: " ++ t) ∧
      (InitApprole env v r s t p).2.1.token = a.clientToken) := by
  constructor
  · intro hcr
    simp only [InitApprole, ApproleLogin, hr, hs, ht, Option.getD_none, trimSuffix_empty,
      hp, if_neg hp, hlogin, hauth, hcr, reduceIte, ne_eq, not_false_iff, if_true,
      Bool.false_eq_true, if_false]
    exact ⟨trivial, trivial⟩
  · intro hcr hw
    simp only [InitApprole, ApproleLogin, hr, hs, ht, Option.getD_none, trimSuffix_empty,
      hp, if_neg hp, hlogin, hauth, hcr, hw, reduceIte, ne_eq, not_false_iff, if_true,
      Bool.false_eq_true, if_false]
    exact ⟨trivial, trivial⟩

/-- A backend accepting approle logins at `auth/approle2/login` with fresh
token `t3`; everything else fails. -/
def approleBackend : Backend :=
  { readResp := fun _ _ => .err "lookup down"
    listResp := fun _ _ => .err "op failed"
    writeResp := fun q _ _ =>
      if q = "auth/approle2/login" then .ok (some { auth := some ⟨"t3"⟩ })
      else .err "op failed"
    deleteResp := fun _ _ => .err "op failed" }

/-- A filesystem with readable credential files, no token cache file, and
all file creation failing. -/
def freshFS : FS :=
  { readFile := fun q =>
      if q = "role.txt" then some "rid\n"
      else if q = "secret.txt" then some "sid\n"
      else none
    createOk := fun _ => false
    writeOk := fun _ => false }

/-- Environment for the fresh-login-then-persist-failure run. -/
def freshEnv : Env := { backend := approleBackend, fs := freshFS, now := 100 }

/-- A filesystem like `freshFS` except that file creation succeeds while
writing to the created file fails. -/
def freshWriteFS : FS :=
  { readFile := fun q =>
      if q = "role.txt" then some "rid\n"
      else if q = "secret.txt" then some "sid\n"
      else none
    createOk := fun _ => true
    writeOk := fun _ => false }

/-- Environment for the fresh-login-then-write-failure run. -/
def freshWriteEnv : Env := { backend := approleBackend, fs := freshWriteFS, now := 100 }

/-- Witness for C8 at concrete environments, one per persistence-failure
mode: file creation failing, and file writing failing after creation. -/
theorem vault_C8_witness :
    ((InitApprole freshEnv {} "role.txt" "secret.txt" "token.txt" "auth/approle2").1 =
        .err ("unable to create vault token file: " ++ "token.txt") ∧
      (InitApprole freshEnv {} "role.txt" "secret.txt" "token.txt" "auth/approle2").2.1.token
        = "t3") ∧
    ((InitApprole freshWriteEnv {} "role.txt" "secret.txt" "token.txt" "auth/approle2").1 =
        .err ("unable to write to vault token file: " ++ "token.txt") ∧
      (InitApprole freshWriteEnv {} "role.txt" "secret.txt" "token.txt"
        "auth/approle2").2.1.token = "t3") :=
  ⟨(vault_C8 freshEnv {} "role.txt" "secret.txt" "token.txt" "auth/approle2" "rid\n" "sid\n"
      { auth := some ⟨"t3"⟩ } ⟨"t3"⟩ (by decide) rfl rfl rfl rfl rfl).1 rfl,
   (vault_C8 freshWriteEnv {} "role.txt" "secret.txt" "token.txt" "auth/approle2" "rid\n"
      "sid\n" { auth := some ⟨"t3"⟩ } ⟨"t3"⟩ (by decide) rfl rfl rfl rfl rfl).2 rfl rfl⟩

/-- The TTL self-lookup never changes the client state. -/
theorem GetTokenTTL_state (env : Env) (v : API) : (GetTokenTTL env v).2.1 = v := by
  simp only [GetTokenTTL]
  repeat' split
  all_goals rfl

/-- The token health check never changes the client state. -/
theorem tokenRefreshNeeded_state (env : Env) (v : API) (m : Int) :
    (tokenRefreshNeeded env v m).2.1 = v := by
  have h := GetTokenTTL_state env v
  simp only [tokenRefreshNeeded]
  split <;> (simp_all; try (split <;> rfl))

/-- Destructured form of state preservation for the health check. -/
theorem tokenRefreshNeeded_state_of (env : Env) (v : API) (m : Int) {res : Res Bool}
    {w : API} {tr : List Event} (h : tokenRefreshNeeded env v m = (res, w, tr)) : w = v := by
  have h2 : w = (tokenRefreshNeeded env v m).2.1 := by rw [h]
  rw [h2, tokenRefreshNeeded_state]

/-- ApproleLogin always leaves the cached method at `approle`. -/
theorem ApproleLogin_method (env : Env) (v : API) (a b c : String) :
    (ApproleLogin env v a b c).2.1.authCache.lastAuthMethod = "approle" := by
  simp only [ApproleLogin]
  split <;> first | rfl | (split <;> rfl)

/-- ApproleLogin never touches the stored role-id file path. -/
theorem ApproleLogin_roleIDFile (env : Env) (v : API) (a b c : String) :
    (ApproleLogin env v a b c).2.1.authCache.approle.roleIDFile
      = v.authCache.approle.roleIDFile := by
  simp only [ApproleLogin]
  split <;> first | rfl | (split <;> rfl)

/-- ApproleLogin never touches the stored secret-id file path. -/
theorem ApproleLogin_secretIDFile (env : Env) (v : API) (a b c : String) :
    (ApproleLogin env v a b c).2.1.authCache.approle.secretIDFile
      = v.authCache.approle.secretIDFile := by
  simp only [ApproleLogin]
  split <;> first | rfl | (split <;> rfl)

/-- ApproleLogin never touches the stored token file path. -/
theorem ApproleLogin_tokenFile (env : Env) (v : API) (a b c : String) :
    (ApproleLogin env v a b c).2.1.authCache.approle.tokenFile
      = v.authCache.approle.tokenFile := by
  simp only [ApproleLogin]
  split <;> first | rfl | (split <;> rfl)

/-- Destructured form of the `ApproleLogin` cache facts. -/
theorem ApproleLogin_state_of (env : Env) (v : API) (a b c : String) {res : Res String}
    {w : API} {tr : List Event} (h : ApproleLogin env v a b c = (res, w, tr)) :
    w.authCache.lastAuthMethod = "approle" ∧
    w.authCache.approle.roleIDFile = v.authCache.approle.roleIDFile ∧
    w.authCache.approle.secretIDFile = v.authCache.approle.secretIDFile ∧
    w.authCache.approle.tokenFile = v.authCache.approle.tokenFile := by
  have h2 : w = (ApproleLogin env v a b c).2.1 := by rw [h]
  subst h2
  exact ⟨ApproleLogin_method env v a b c, ApproleLogin_roleIDFile env v a b c,
    ApproleLogin_secretIDFile env v a b c, ApproleLogin_tokenFile env v a b c⟩

/-- C9: `InitApprole` records the three file paths and sets the active
method to `approle` before reading any credential file, so after every
call — succeeding or failing — those cache fields hold the arguments; and
any later dispatcher recovery from such a cache (non-empty file paths,
cooldown elapsed, token reported stale by a failing self-lookup) dispatches
to `InitApprole` with exactly the stored file paths. -/
theorem vault_C9 (env : Env) (v : API) (r s t p : String) :
    ((InitApprole env v r s t p).2.1.authCache.lastAuthMethod = "approle" ∧
     (InitApprole env v r s t p).2.1.authCache.approle.roleIDFile = r ∧
     (InitApprole env v r s t p).2.1.authCache.approle.secretIDFile = s ∧
     (InitApprole env v r s t p).2.1.authCache.approle.tokenFile = t) ∧
    (∀ (env2 : Env) (v2 : API) (le : String),
      v2.authCache.lastAuthMethod = "approle" →
      v2.authCache.approle.roleIDFile = r →
      v2.authCache.approle.secretIDFile = s →
      v2.authCache.approle.tokenFile = t →
      ¬ r = "" → ¬ s = "" →
      ¬ env2.now - v2.authCache.lastAuthTime < 5 →
      env2.backend.readResp "/auth/token/lookup-self" v2.token = .err le →
      Event.dispatchInit r s t v2.authCache.approle.authPath
        ∈ (checkAuthNeeded env2 v2).2.2) := by
  constructor
  · rcases hr : env.fs.readFile r with _ | rc
    · simp [InitApprole, hr]
    rcases hs : env.fs.readFile s with _ | sc
    · simp [InitApprole, hr, hs]
    by_cases hv : trimSuffix ((env.fs.readFile t).getD "") "\n" = ""
    · simp only [InitApprole, hr, hs, hv, reduceIte]
      split
      next e v4 trl heq =>
        obtain ⟨hm, h1, h2, h3⟩ := ApproleLogin_state_of _ _ _ _ _ heq
        simp [hm, h1, h2, h3]
      next m v4 trl heq =>
        obtain ⟨hm, h1, h2, h3⟩ := ApproleLogin_state_of _ _ _ _ _ heq
        simp [hm, h1, h2, h3]
      next tok v4 trl heq =>
        obtain ⟨hm, h1, h2, h3⟩ := ApproleLogin_state_of _ _ _ _ _ heq
        repeat' split
        all_goals simp [hm, h1, h2, h3]
    · simp only [InitApprole, hr, hs, hv, reduceIte]
      split
      next m v3 trh heq =>
        have h0 := tokenRefreshNeeded_state_of _ _ _ heq
        subst h0
        simp
      next e v3 trh heq =>
        have h0 := tokenRefreshNeeded_state_of _ _ _ heq
        subst h0
        simp
      next v3 trh heq =>
        have h0 := tokenRefreshNeeded_state_of _ _ _ heq
        subst h0
        simp
      next v3 trh heq =>
        have h0 := tokenRefreshNeeded_state_of _ _ _ heq
        subst h0
        split
        next e v4 trl heq2 =>
          obtain ⟨hm, h1, h2, h3⟩ := ApproleLogin_state_of _ _ _ _ _ heq2
          simp [hm, h1, h2, h3]
        next m v4 trl heq2 =>
          obtain ⟨hm, h1, h2, h3⟩ := ApproleLogin_state_of _ _ _ _ _ heq2
          simp [hm, h1, h2, h3]
        next tok v4 trl heq2 =>
          obtain ⟨hm, h1, h2, h3⟩ := ApproleLogin_state_of _ _ _ _ _ heq2
          repeat' split
          all_goals simp [hm, h1, h2, h3]
  · intro env2 v2 le hm hrf hsf htf hrne hsne hcool hlk
    simp only [checkAuthNeeded, tokenRefreshNeeded, GetTokenTTL, hlk, if_neg hcool, hm,
      hrf, hsf, htf]
    rw [if_neg (by simp [hrne, hsne])]
    simp

/-- Client state for the C9 witness: approle with stored file paths. -/
def approleFileAPI : API :=
  { token := "t1"
    authCache := { lastAuthMethod := "approle"
                   approle := { roleIDFile := "role.txt", secretIDFile := "secret.txt"
                                tokenFile := "token.txt", authPath := "ap" } } }

/-- Witness for C9 at a concrete environment. -/
theorem vault_C9_witness :
    ((InitApprole failEnv {} "role.txt" "secret.txt" "token.txt" "ap").2.1.authCache.lastAuthMethod = "approle" ∧
     (InitApprole failEnv {} "role.txt" "secret.txt" "token.txt" "ap").2.1.authCache.approle.roleIDFile = "role.txt" ∧
     (InitApprole failEnv {} "role.txt" "secret.txt" "token.txt" "ap").2.1.authCache.approle.secretIDFile = "secret.txt" ∧
     (InitApprole failEnv {} "role.txt" "secret.txt" "token.txt" "ap").2.1.authCache.approle.tokenFile = "token.txt") ∧
    Event.dispatchInit "role.txt" "secret.txt" "token.txt" "ap"
      ∈ (checkAuthNeeded failEnv approleFileAPI).2.2 := by
  refine ⟨(vault_C9 failEnv {} "role.txt" "secret.txt" "token.txt" "ap").1, ?_⟩
  exact (vault_C9 failEnv {} "role.txt" "secret.txt" "token.txt" "ap").2 failEnv
    approleFileAPI "op failed" rfl rfl rfl rfl (by decide) (by decide) (by decide) rfl

end GoVault
